import Mathlib

/-!
Shallow embedding of the DuelBot progression and duel engine
(src/models/user.py, src/models/duel.py, src/services/user_service.py,
src/services/duel_service.py, src/database.py, src/commands/duel_commands.py).

Conventions of the embedding:
* Python ints are `Int` (arbitrary precision, like Python).
* Python `//` (floor division) is `Int.fdiv`.
* Python float multipliers (2.0, 0.5, 0.1, 0.8, 1.0) are modelled as exact
  rationals, and `int(...)` on a non-negative product as `Int.floor`; at every
  concrete input evaluated below the IEEE-754 double computation of the source
  and the exact rational computation give the same integer.
* `datetime` values are modelled by their day ordinal (`Int`); the source only
  ever compares `.date()` for equality and stamps the current time.
* Database reads become explicit arguments (the snapshot the persistence layer
  returned); database writes become returned values (state passing).
* `random.randint(a, b)` is modelled as `a + seed % (b - a + 1)` for an
  arbitrary seed, so every outcome in `[a, b]` is reachable and no other;
  `random.random() < 0.7` is modelled as an arbitrary boolean outcome.
* Python exceptions (`raise ValueError(...)`) become `Except PyError`; each
  `PyError` constructor corresponds to one distinct error message raised by
  the source.
-/

namespace DuelBot

/-- Error kinds: one constructor per distinct `ValueError` message raised by
`duel_service.py` (`create_duel`, `accept_duel`, `decline_duel`,
`cancel_duel`, `make_move`). -/
inductive PyError where
  | challengerHasPendingDuel
  | challengedHasPendingDuel
  | notChallenged
  | notChallenger
  | noActiveDuel
  | notPartOfDuel
  deriving DecidableEq, Repr

/-- `models/user.py` dataclass `User` (string identity fields kept; timestamp
bookkeeping fields `created_at`/`updated_at` are presentation-only and
omitted). `last_duel_date` is the day ordinal of the stored datetime. -/
structure User where
  user_id : Int
  username : String := ""
  display_name : Option String := none
  guild_id : Int
  level : Int := 1
  experience : Int := 0
  wins : Int := 0
  losses : Int := 0
  draws : Int := 0
  win_streak : Int := 0
  best_win_streak : Int := 0
  total_damage_dealt : Int := 0
  total_damage_taken : Int := 0
  duels_played : Int := 0
  duels_today : Int := 0
  last_duel_date : Option Int := none
  is_outlaw : Bool := false
  deriving DecidableEq, Repr

/-- `User.calculate_xp_gain` (models/user.py lines 43-86), translated line by
line; the float multipliers are exact rationals and `int(...)` is `Int.floor`
(the product is non-negative whenever the floor is above the `max 1` cutoff,
so floor and Python truncation agree). -/
def User.calculate_xp_gain (self : User) (won : Bool) (damage_dealt opponent_level : Int)
    (is_first_duel_today : Bool := false) (opponent_is_outlaw : Bool := false) : Int :=
  let base_xp : Int := if won then 10 else 5
  let damage_bonus : Int := min (Int.fdiv damage_dealt 20) 10
  let streak_bonus : Int := if won then min self.win_streak 5 else 0
  let first_duel_bonus : Int := if is_first_duel_today then 5 else 0
  let damage_xp_bonus : Int := Int.fdiv damage_dealt 10
  let level_diff : Int := opponent_level - self.level
  let level_multiplier : ℚ := if level_diff > 0 then 2 else if level_diff < 0 then 1/2 else 1
  let outlaw_multiplier : ℚ := if opponent_is_outlaw then 2 else 1
  let diminishing_factor : ℚ :=
    if self.duels_today ≥ 10 then 1/10
    else if self.duels_today ≥ 5 then 1/2
    else if self.duels_today ≥ 3 then 4/5
    else 1
  let total_xp : Int := Rat.floor
    (((base_xp + damage_bonus + streak_bonus + first_duel_bonus + damage_xp_bonus : Int) : ℚ)
      * level_multiplier * outlaw_multiplier * diminishing_factor)
  max 1 total_xp

/-- `User.get_xp_for_next_level` (models/user.py lines 88-95). -/
def User.get_xp_for_next_level (self : User) : Int :=
  if self.level ≥ 99 then 0
  else
    let next_level := self.level + 1
    next_level ^ 3 * 10 + next_level * 100

/-- `User.get_xp_progress` (models/user.py lines 97-117): returns
(current_level_xp, required_xp, percentage). The percentage division
`int((current / required) * 100)` is exact-rational floor (both operands are
non-negative at every use below). -/
def User.get_xp_progress (self : User) : Int × Int × Int :=
  if self.level ≥ 99 then (0, 0, 100)
  else
    let current_level_xp_required : Int :=
      if self.level = 1 then 0
      else (self.level - 1) ^ 3 * 10 + (self.level - 1) * 100
    let next_level_xp_required := self.get_xp_for_next_level
    let current_level_xp := max 0 (self.experience - current_level_xp_required)
    let required_xp := next_level_xp_required - current_level_xp_required
    let percentage : Int :=
      if required_xp > 0 then Rat.floor (((current_level_xp : ℚ) / required_xp) * 100)
      else 100
    (current_level_xp, required_xp, percentage)

/-- XP required to reach a given level by the source formula
`(level ** 3) * 10 + level * 100` (user_service.py line 117,
duel_commands.py line 371). -/
def required_xp_for (level : Int) : Int :=
  level ^ 3 * 10 + level * 100

/-- The `while level < 99` loop of `UserService.calculate_level`
(user_service.py lines 113-120), with explicit fuel; the loop body advances
`level` by one, so fuel 98 starting from level 1 is never exhausted before
the `level < 99` guard stops the loop. -/
def calc_level_loop (experience : Int) : Int → Nat → Int
  | level, 0 => level
  | level, fuel + 1 =>
    if level < 99 then
      if experience < required_xp_for (level + 1) then level
      else calc_level_loop experience (level + 1) fuel
    else level

/-- `UserService.calculate_level` (user_service.py lines 106-122). -/
def calculate_level (experience : Int) : Int :=
  if experience ≤ 0 then 1
  else min (calc_level_loop experience 1 98) 99

/-- The dict returned by `UserService.update_user_after_duel`
(user_service.py lines 94-100). -/
structure DuelUpdateResult where
  xp_gained : Int
  level_up : Bool
  new_level : Int
  duels_today : Int
  is_outlaw : Bool
  deriving DecidableEq, Repr

/-- `UserService.update_user_after_duel` (user_service.py lines 29-100).
The read `self.db.get_user(user_id, guild_id)` is the explicit argument
`user?` (the snapshot the persistence layer returned); the final
`update_user_stats` write is returned as the updated `User` value.
`today` is the current day ordinal (`date.today()`); the stamped
`last_duel_date` is `datetime.now()`, whose day ordinal is `today`.
When no user record exists the source logs and falls through to a bare
`return` (value `None`): this is `Except.ok none` — no exception is raised
on any path of this function. -/
def update_user_after_duel (user? : Option User) (won : Bool)
    (damage_dealt damage_taken : Int) (opponent_level : Int := 1)
    (opponent_is_outlaw : Bool := false) (today : Int := 0) :
    Except PyError (Option (User × DuelUpdateResult)) :=
  match user? with
  | none => .ok none
  | some user =>
    let is_first_duel_today : Bool :=
      match user.last_duel_date with
      | none => true
      | some d => d ≠ today
    let new_duels_today : Int := if is_first_duel_today then 1 else user.duels_today + 1
    let xp_gained := user.calculate_xp_gain won damage_dealt opponent_level
      is_first_duel_today opponent_is_outlaw
    let new_experience := user.experience + xp_gained
    let new_level := calculate_level new_experience
    let level_up : Bool := new_level > user.level
    let base : User :=
      { user with
        duels_played := user.duels_played + 1
        duels_today := new_duels_today
        last_duel_date := some today
        total_damage_dealt := user.total_damage_dealt + damage_dealt
        total_damage_taken := user.total_damage_taken + damage_taken
        experience := new_experience
        level := new_level }
    let updated : User :=
      if won then
        let new_win_streak := user.win_streak + 1
        { base with
          wins := user.wins + 1
          win_streak := new_win_streak
          best_win_streak := max user.best_win_streak new_win_streak
          is_outlaw := new_win_streak ≥ 5 }
      else
        { base with
          losses := user.losses + 1
          win_streak := 0
          is_outlaw := false }
    .ok (some (updated,
      { xp_gained := xp_gained
        level_up := level_up
        new_level := new_level
        duels_today := new_duels_today
        is_outlaw := updated.is_outlaw }))

/-- The user whose record exercises the stale daily counter: the last duel
was on day 4 and the stored `duels_today` is 10 carried over from that day. -/
def stale_counter_user : User :=
  { user_id := 1, guild_id := 1, level := 1, experience := 0,
    duels_today := 10, last_duel_date := some 4 }

/-- The user of the spec's worked XP examples: level 10, no streak, first
duel of the day, 0 duels played today before this one. -/
def example_xp_user : User :=
  { user_id := 1, guild_id := 1, level := 10, win_streak := 0, duels_today := 0 }

/-- The user at level 2 holding exactly the XP that reaches level 2; the
stored level satisfies the level invariant
(`calculate_level 280 = 2`, see the C5 theorem, since 280 = 2³·10+2·100). -/
def level2_user : User := { user_id := 1, guild_id := 1, level := 2, experience := 280 }

/-! The duel state machine: `models/duel.py` and
`services/duel_service.py`. -/

/-- `models/duel.py` `DuelStatus`. -/
inductive DuelStatus where
  | pending
  | active
  | completed
  | cancelled
  | timeout
  deriving DecidableEq, Repr

/-- `models/duel.py` `MoveType`. -/
inductive MoveType where
  | attack
  | defend
  | heal
  | special
  deriving DecidableEq, Repr

/-- `models/duel.py` dataclass `Duel`; timestamps are day ordinals. -/
structure Duel where
  duel_id : Int
  challenger_id : Int
  challenged_id : Int
  guild_id : Int
  status : DuelStatus
  winner_id : Option Int := none
  challenger_hp : Int := 100
  challenged_hp : Int := 100
  challenger_attack : Int := 10
  challenged_attack : Int := 10
  challenger_defense : Int := 5
  challenged_defense : Int := 5
  created_at : Option Int := none
  started_at : Option Int := none
  ended_at : Option Int := none
  deriving DecidableEq, Repr

/-- `Duel.is_active` (models/duel.py lines 42-45). -/
def Duel.is_active (self : Duel) : Bool := self.status == .active

/-- `Duel.get_user_hp` (models/duel.py lines 57-63). -/
def Duel.get_user_hp (self : Duel) (user_id : Int) : Int :=
  if user_id = self.challenger_id then self.challenger_hp
  else if user_id = self.challenged_id then self.challenged_hp
  else 0

/-- `Duel.get_user_attack` (models/duel.py lines 65-71). -/
def Duel.get_user_attack (self : Duel) (user_id : Int) : Int :=
  if user_id = self.challenger_id then self.challenger_attack
  else if user_id = self.challenged_id then self.challenged_attack
  else 0

/-- One move's consumption of the module-level `random` stream
(duel_service.py `_calculate_move_effects`): `seed` drives the one
`random.randint` call the chosen move makes, and `special_hit` is the
outcome of `random.random() < 0.7`. -/
structure Rng where
  seed : Nat
  special_hit : Bool

/-- `random.randint(a, b)` (inclusive bounds): an arbitrary seed mapped
into [a, b], so exactly the outcomes the source can draw are reachable. -/
def uniform_randint (a b : Int) (seed : Nat) : Int :=
  a + ((seed % (b - a + 1).toNat : Nat) : Int)

/-- The append-only move log entry written by `db.add_duel_move`
(duel_service.py line 122). -/
structure DuelMoveRec where
  duel_id : Int
  user_id : Int
  move_type : MoveType
  damage : Int
  healing : Int
  deriving DecidableEq, Repr

/-- `DuelService._calculate_move_effects` (duel_service.py lines 133-161):
(damage, healing, message). The fetched `defense` is never read by the
source; the trailing `return 0, 0, "does nothing!"` is unreachable because
every `MoveType` member is covered. -/
def calc_move_effects (duel : Duel) (user_id : Int) (move_type : MoveType)
    (rng : Rng) : Int × Int × String :=
  let attack_power := duel.get_user_attack user_id
  match move_type with
  | .attack =>
    let damage := max 1 (attack_power + uniform_randint (-2) 3 rng.seed)
    (damage, 0, "attacks for " ++ toString damage ++ " damage!")
  | .defend => (0, 0, "defends, reducing incoming damage!")
  | .heal =>
    let heal_amount := uniform_randint 5 15 rng.seed
    (0, heal_amount, "heals for " ++ toString heal_amount ++ " HP!")
  | .special =>
    if rng.special_hit then
      let damage := attack_power * 2 + uniform_randint 0 5 rng.seed
      (damage, 0, "uses a special attack for " ++ toString damage ++ " damage!")
    else (0, 0, "tries a special attack but misses!")

/-- `DuelService._check_duel_end` (duel_service.py lines 168-176): the
winner's id, or `none` on a draw AND when no side has fallen. -/
def check_duel_end (duel : Duel) : Option Int :=
  if duel.challenger_hp ≤ 0 ∧ duel.challenged_hp ≤ 0 then none
  else if duel.challenger_hp ≤ 0 then some duel.challenged_id
  else if duel.challenged_hp ≤ 0 then some duel.challenger_id
  else none

/-- `DuelService._end_duel` (duel_service.py lines 178-196): marks the duel
completed (`DuelStatus.COMPLETED if winner_id else DuelStatus.COMPLETED` is
COMPLETED on both branches), stores the winner and stamps the end time. -/
def end_duel (duel : Duel) (winner_id : Option Int) (now : Int) : Duel :=
  { duel with status := .completed, winner_id := winner_id, ended_at := some now }

/-- The effect of one `DuelService.make_move` call: `stored` is the duels
row after all writes, `returned` is the snapshot fetched at line 125 and
handed back to the caller (fetched before `_end_duel` runs, so it can lag
`stored`), `move` the appended log entry. -/
structure MoveOutcome where
  stored : Duel
  returned : Duel
  move : DuelMoveRec
  message : String

/-- Lines 126-129 of `make_move`: `winner = _check_duel_end(...)` followed by
the truthiness guard `if winner: _end_duel(...)`. Python truthiness treats
both `None` and the integer 0 as false, so `_end_duel` runs only for a
non-`None`, non-zero winner id. -/
def resolve_end (duel2 : Duel) (now : Int) : Duel :=
  match check_duel_end duel2 with
  | some w => if w ≠ 0 then end_duel duel2 (some w) now else duel2
  | none => duel2

/-- `DuelService.make_move` (duel_service.py lines 90-131). The
`db.get_pending_duel` read is the explicit argument `duel?`; writes are
folded into the returned `MoveOutcome` (single-writer discipline, as §5 of
the spec requires). -/
def make_move (duel? : Option Duel) (user_id : Int) (move_type : MoveType)
    (rng : Rng) (now : Int) : Except PyError MoveOutcome :=
  match duel? with
  | none => .error .noActiveDuel
  | some duel =>
    if ¬ duel.is_active then .error .noActiveDuel
    else if user_id ≠ duel.challenger_id ∧ user_id ≠ duel.challenged_id then
      .error .notPartOfDuel
    else
      let effects := calc_move_effects duel user_id move_type rng
      let damage := effects.1
      let healing := effects.2.1
      let message := effects.2.2
      let duel1 :=
        if user_id = duel.challenger_id then
          { duel with challenged_hp := max 0 (duel.challenged_hp - damage) }
        else
          { duel with challenger_hp := max 0 (duel.challenger_hp - damage) }
      let duel2 :=
        if healing > 0 then
          if user_id = duel.challenger_id then
            { duel1 with challenger_hp := min 100 (duel1.get_user_hp user_id + healing) }
          else
            { duel1 with challenged_hp := min 100 (duel1.get_user_hp user_id + healing) }
        else duel1
      let move_rec : DuelMoveRec :=
        { duel_id := duel.duel_id, user_id := user_id, move_type := move_type,
          damage := damage, healing := healing }
      let stored := resolve_end duel2 now
      .ok { stored := stored, returned := duel2, move := move_rec, message := message }

/-- The concrete duel used to witness the HP-bounds theorem: a fresh active
duel with all default stats. -/
def hp_witness_duel : Duel :=
  { duel_id := 2, challenger_id := 1, challenged_id := 2, guild_id := 1,
    status := .active }

/-- The duel state that exposes the double-knockout bug: an active duel in
which the mover's own HP is already 0 and the opponent has 1 HP left, so the
mover's attack (which always deals at least 1 damage) fells the opponent and
leaves both sides at HP ≤ 0. -/
def double_ko_duel : Duel :=
  { duel_id := 1, challenger_id := 1, challenged_id := 2, guild_id := 1,
    status := .active, challenger_hp := 0, challenged_hp := 1 }

/-! Challenge and acceptance: `database.py` `get_pending_duel` and
`duel_service.py` `create_duel` / `accept_duel`. The duels table is a list
ordered most-recent-first (the SQL orders by `created_at DESC LIMIT 1`, so
the query result is the first list hit). -/

/-- `Database.get_pending_duel` (database.py lines 186-196): the SQL filter
is `guild_id = $1 AND status = 'pending' AND (challenger_id = $2 OR
challenged_id = $2)` — it matches only PENDING rows, never active ones. -/
def get_pending_duel (db : List Duel) (user_id guild_id : Int) : Option Duel :=
  db.find? fun d =>
    d.guild_id == guild_id && d.status == .pending
      && (d.challenger_id == user_id || d.challenged_id == user_id)

/-- `DuelService.create_duel` (duel_service.py lines 19-32) together with
`Database.create_duel` (database.py lines 170-178): the insert takes the
table's column defaults; `next_id` stands for the SERIAL id the insert
draws. Returns the created duel and the new table contents. -/
def create_duel (db : List Duel) (challenger_id challenged_id guild_id next_id : Int) :
    Except PyError (Duel × List Duel) :=
  let challenger_pending := get_pending_duel db challenger_id guild_id
  let challenged_pending := get_pending_duel db challenged_id guild_id
  if challenger_pending.isSome then .error .challengerHasPendingDuel
  else if challenged_pending.isSome then .error .challengedHasPendingDuel
  else
    let duel : Duel :=
      { duel_id := next_id, challenger_id := challenger_id,
        challenged_id := challenged_id, guild_id := guild_id, status := .pending }
    .ok (duel, duel :: db)

/-- `DuelService.accept_duel` (duel_service.py lines 34-52): returns `None`
(here `.ok none`) when the caller has no pending duel, raises (`.error`)
when the pending duel found was not issued to the caller, and otherwise
activates the duel, stamps the start time and returns the re-fetched row
together with the new table contents. -/
def accept_duel (db : List Duel) (user_id guild_id now : Int) :
    Except PyError (Option (Duel × List Duel)) :=
  match get_pending_duel db user_id guild_id with
  | none => .ok none
  | some duel =>
    if duel.challenged_id ≠ user_id then .error .notChallenged
    else
      let updated := { duel with status := .active, started_at := some now }
      .ok (some (updated,
        db.map fun d => if d.duel_id == duel.duel_id then updated else d))

/-- An ACTIVE (non-terminal but not pending) duel of user 1 in guild 5. -/
def active_duel_of_1 : Duel :=
  { duel_id := 1, challenger_id := 1, challenged_id := 3, guild_id := 5,
    status := .active }

/-- A pending duel challenged BY user 1 TO user 2 in guild 5. -/
def pending_duel_of_1 : Duel :=
  { duel_id := 1, challenger_id := 1, challenged_id := 2, guild_id := 5,
    status := .pending }

/-! The instant-duel mode: `commands/duel_commands.py`, `duel` command,
lines 74-160. No accept/decline handshake, no per-user move submission:
rounds run automatically until one side's HP is ≤ 0. -/

/-- duel_commands.py lines 75-76: `challenger_hp = 250; target_hp = 250`. -/
def instant_duel_initial_hp : Int := 250

/-- The `while challenger_hp > 0 and target_hp > 0` round loop of the `duel`
command (duel_commands.py lines 101-159), with explicit fuel; `rng round`
yields the seeds of the two `random.randint(0, 100)` rolls of that round
(challenger's roll first). Each round both damages are computed from the
pre-round state and applied simultaneously, each clamped below at 0; the
embed-rendering and the 2-second sleep are presentation only. -/
def instant_duel_loop (challenger_level target_level : Int) (rng : Nat → Nat × Nat) :
    Nat → Int → Int → Nat → Option (Int × Int)
  | _, _, _, 0 => none
  | round_num, challenger_hp, target_hp, fuel + 1 =>
    if challenger_hp > 0 ∧ target_hp > 0 then
      let challenger_damage := uniform_randint 0 100 (rng round_num).1 + challenger_level
      let target_damage := uniform_randint 0 100 (rng round_num).2 + target_level
      instant_duel_loop challenger_level target_level rng (round_num + 1)
        (max 0 (challenger_hp - target_damage)) (max 0 (target_hp - challenger_damage))
        fuel
    else some (challenger_hp, target_hp)

/-- The whole instant-duel fight: both sides start at 250 HP, rounds are
numbered from 1. Fuel 251 suffices for termination (each round removes at
least 1 HP from each side while the loop continues, see the C10 theorem). -/
def instant_duel (challenger_level target_level : Int) (rng : Nat → Nat × Nat) :
    Option (Int × Int) :=
  instant_duel_loop challenger_level target_level rng 1
    instant_duel_initial_hp instant_duel_initial_hp 251

/-! Lemmas and claim theorems. -/

/-! Helper lemmas shared by several claims. -/

/-- `Rat.floor` agrees with the floor of the `FloorRing` structure on `ℚ`. -/
lemma rat_floor_eq (q : ℚ) : q.floor = ⌊q⌋ := by rw [Rat.floor_def', Rat.floor_def]

/-- The level loop never goes below its starting level. -/
lemma calc_level_loop_ge (experience : Int) :
    ∀ (fuel : Nat) (level : Int), level ≤ calc_level_loop experience level fuel
  | 0, level => le_refl _
  | fuel + 1, level => by
    simp only [calc_level_loop]
    split
    · split
      · exact le_refl _
      · exact le_trans (by omega) (calc_level_loop_ge experience fuel (level + 1))
    · exact le_refl _

/-- The level loop is monotone in the experience argument. -/
lemma calc_level_loop_mono {x y : Int} (h : x ≤ y) :
    ∀ (fuel : Nat) (level : Int),
      calc_level_loop x level fuel ≤ calc_level_loop y level fuel
  | 0, _ => le_refl _
  | fuel + 1, level => by
    simp only [calc_level_loop]
    split
    · by_cases hy : y < required_xp_for (level + 1)
      · rw [if_pos (lt_of_le_of_lt h hy), if_pos hy]
      · by_cases hx : x < required_xp_for (level + 1)
        · rw [if_pos hx, if_neg hy]
          exact le_trans (by omega) (calc_level_loop_ge y fuel (level + 1))
        · rw [if_neg hx, if_neg hy]
          exact calc_level_loop_mono h fuel (level + 1)
    · exact le_refl _

/-- If the level loop has fuel left and the experience is below the next
requirement, it stops at the current level. -/
lemma calc_level_loop_stop {x level : Int} (h99 : level < 99)
    (hlt : x < required_xp_for (level + 1)) :
    ∀ fuel : Nat, fuel ≠ 0 → calc_level_loop x level fuel = level
  | 0, h => absurd rfl h
  | _ + 1, _ => by simp only [calc_level_loop]; rw [if_pos h99, if_pos hlt]

set_option maxHeartbeats 1000000 in
/-- Exact inversion of the curve on 2 ≤ L ≤ 99, checked by evaluation. -/
lemma calculate_level_hits_required : ∀ L : Nat, L < 100 → 2 ≤ L →
    calculate_level (required_xp_for (L : Int)) = (L : Int) := by decide

/-- C5: `calculate_level` (the spec's levelFromExperience) is monotone
non-decreasing in experience, inverts the curve exactly at
`required_xp_for L` for every L in [2, 99], returns 1 on
[0, required_xp_for 2 - 1], and is capped at 99 for all experience. -/
theorem level_curve_properties :
    (∀ x y : Int, x ≤ y → calculate_level x ≤ calculate_level y)
    ∧ (∀ L : Int, 2 ≤ L → L ≤ 99 → calculate_level (required_xp_for L) = L)
    ∧ (∀ x : Int, 0 ≤ x → x < required_xp_for 2 → calculate_level x = 1)
    ∧ (∀ x : Int, calculate_level x ≤ 99) := by
  have hge1 : ∀ x : Int, 1 ≤ calculate_level x := by
    intro x
    unfold calculate_level
    split
    · exact le_refl _
    · exact le_min (calc_level_loop_ge x 98 1) (by norm_num)
  refine ⟨?_, ?_, ?_, ?_⟩
  · intro x y hxy
    unfold calculate_level
    by_cases hx : x ≤ 0
    · rw [if_pos hx]
      by_cases hy : y ≤ 0
      · rw [if_pos hy]
      · rw [if_neg hy]
        exact le_min (calc_level_loop_ge y 98 1) (by norm_num)
    · rw [if_neg hx, if_neg (by omega : ¬ y ≤ 0)]
      exact min_le_min (calc_level_loop_mono hxy 98 1) (le_refl _)
  · intro L h2 h99
    obtain ⟨n, rfl⟩ := Int.eq_ofNat_of_zero_le (by omega : (0 : Int) ≤ L)
    exact calculate_level_hits_required n (by omega) (by exact_mod_cast h2)
  · intro x h0 hlt
    unfold calculate_level
    by_cases hx : x ≤ 0
    · rw [if_pos hx]
    · rw [if_neg hx,
        calc_level_loop_stop (by norm_num) (by norm_num [required_xp_for] at hlt ⊢; omega) 98
          (by norm_num)]
      norm_num
  · intro x
    unfold calculate_level
    split
    · norm_num
    · exact min_le_right _ _

/-- Witness for C5: the level-curve theorem applied at concrete inputs. -/
theorem level_curve_properties_witness :
    calculate_level 0 ≤ calculate_level 280
    ∧ calculate_level (required_xp_for 2) = 2
    ∧ calculate_level 279 = 1
    ∧ calculate_level 9999999999 ≤ 99 :=
  ⟨level_curve_properties.1 0 280 (by norm_num),
   level_curve_properties.2.1 2 (by norm_num) (by norm_num),
   level_curve_properties.2.2.1 279 (by norm_num) (by norm_num [required_xp_for]),
   level_curve_properties.2.2.2 9999999999⟩

/-- C2: the claim fails on the code — on day 5 (a new day for this user) the
after-duel update detects the first duel of the day (it resets the counter to
1 and grants the +5 first-duel bonus), yet `calculate_xp_gain` reads the
STALE `duels_today = 10` from the pre-update record and applies diminishing
factor 0.1, not 1.0: a loss with 0 damage against an equal-level non-outlaw
opponent awards floor((5+0+0+5+0) × 1 × 1 × 0.1) = 1 XP, where the claimed
factor 1.0 would award 10 XP. -/
theorem first_duel_today_uses_stale_diminishing_counter :
    ((update_user_after_duel (some stale_counter_user) false 0 0 1 false 5).toOption.bind
        id).map (fun p => (p.2.xp_gained, p.2.duels_today)) = some (1, 1) := by
  simp only [update_user_after_duel, User.calculate_xp_gain, stale_counter_user]
  norm_num [Except.toOption]
  norm_num [rat_floor_eq]

/-- C4 counterexample: invoked for a (userId, communityId) pair with no
stored user record, the after-duel update returns the Python value `None`
without raising any error — it is `Except.ok none`, not an `Except.error`. -/
theorem update_missing_user_returns_none_cx :
    update_user_after_duel none true 10 5 1 false 0 = .ok none := rfl

/-- C4 amended: for every argument combination, the after-duel update with a
missing user record silently skips the update and returns `None`; no
`NotFound` (nor any other) error is surfaced to the caller. -/
theorem update_missing_user_silently_skips :
    ∀ (won : Bool) (dd dt ol : Int) (oo : Bool) (today : Int),
      update_user_after_duel none won dd dt ol oo today = .ok none :=
  fun _ _ _ _ _ _ => rfl

/-- C6: the invariant (is_outlaw ⟺ win_streak ≥ 5) is preserved by every
after-duel update of a found user record; a win that brings the streak to 5
or more sets the outlaw flag, and any loss resets streak and flag. -/
theorem outlaw_iff_streak_preserved :
    ∀ (u : User) (won : Bool) (dd dt ol : Int) (oo : Bool) (today : Int)
      (u' : User) (r : DuelUpdateResult),
      (u.is_outlaw ↔ u.win_streak ≥ 5) →
      update_user_after_duel (some u) won dd dt ol oo today = .ok (some (u', r)) →
      (u'.is_outlaw ↔ u'.win_streak ≥ 5)
      ∧ (won = true → u.win_streak + 1 ≥ 5 → u'.is_outlaw = true)
      ∧ (won = false → u'.win_streak = 0 ∧ u'.is_outlaw = false) := by
  intro u won dd dt ol oo today u' r _hinv h
  simp only [update_user_after_duel, Except.ok.injEq, Option.some.injEq, Prod.mk.injEq] at h
  obtain ⟨rfl, -⟩ := h
  cases won <;> simp [decide_eq_true_eq]

/-- Witness for C6: the preservation theorem applied to a concrete user on a
winning duel that raises the streak from 4 to 5. -/
theorem outlaw_iff_streak_preserved_witness :
    ∃ (u' : User) (r : DuelUpdateResult),
      update_user_after_duel
          (some { user_id := 1, guild_id := 1, win_streak := 4 }) true 0 0 1 false 0 =
        .ok (some (u', r))
      ∧ ((u'.is_outlaw ↔ u'.win_streak ≥ 5)
        ∧ (true = true → (4 : Int) + 1 ≥ 5 → u'.is_outlaw = true)
        ∧ (true = false → u'.win_streak = 0 ∧ u'.is_outlaw = false)) := by
  refine ⟨_, _, rfl, ?_⟩
  exact outlaw_iff_streak_preserved
    { user_id := 1, guild_id := 1, win_streak := 4 } true 0 0 1 false 0 _ _
    (by norm_num) rfl

/-- C9: a win with 50 damage dealt against an equal-level (10) non-outlaw
opponent on the first duel of the day awards exactly 22 XP; the same against
a level-20 opponent (2× level multiplier) awards exactly 44 XP. -/
theorem xp_award_example_values :
    example_xp_user.calculate_xp_gain true 50 10 true false = 22
    ∧ example_xp_user.calculate_xp_gain true 50 20 true false = 44 := by
  constructor <;>
  · simp only [User.calculate_xp_gain, example_xp_user]
    norm_num
    rw [show Int.fdiv 50 20 = 2 from rfl, show Int.fdiv 50 10 = 5 from rfl]
    norm_num [rat_floor_eq]

/-- C3: the claim fails on the code — for a level-2 user with experience 280
(exactly requiredXp(2), so 0 XP into the level), `get_xp_progress` returns
(170, 460, 36) instead of the claimed
(experience − requiredXp(2), requiredXp(3) − requiredXp(2), pct) = (0, 290, 0):
the source computes the current level's baseline with `self.level - 1`
in the curve formula (models/user.py line 106) instead of `self.level`. -/
theorem xp_progress_uses_previous_level_baseline :
    level2_user.get_xp_progress = (170, 460, 36)
    ∧ required_xp_for 2 = 280 ∧ required_xp_for 3 = 570 := by
  refine ⟨?_, by norm_num [required_xp_for], by norm_num [required_xp_for]⟩
  simp only [User.get_xp_progress, User.get_xp_for_next_level, level2_user]
  norm_num
  rw [rat_floor_eq, Int.floor_eq_iff]
  norm_num

/-- `random.randint(a, b)` never draws below `a`. -/
lemma uniform_randint_ge (a b : Int) (s : Nat) : a ≤ uniform_randint a b s := by
  unfold uniform_randint
  have := Int.natCast_nonneg (s % (b - a + 1).toNat)
  omega

/-- When both combatants' attack stats are non-negative (as in every duel the
system creates, where they default to 10), no move computes negative damage. -/
lemma calc_damage_nonneg (d : Duel) (u : Int) (mv : MoveType) (rng : Rng)
    (ha1 : 0 ≤ d.challenger_attack) (ha2 : 0 ≤ d.challenged_attack) :
    0 ≤ (calc_move_effects d u mv rng).1 := by
  have hap : 0 ≤ d.get_user_attack u := by
    unfold Duel.get_user_attack; split_ifs <;> omega
  cases mv
  · simp only [calc_move_effects]
    exact le_trans (by norm_num) (le_max_left 1 _)
  · simp [calc_move_effects]
  · simp [calc_move_effects]
  · simp only [calc_move_effects]
    split_ifs
    · have := uniform_randint_ge 0 5 rng.seed
      simp only []
      omega
    · simp

/-- No move computes negative healing. -/
lemma calc_healing_nonneg (d : Duel) (u : Int) (mv : MoveType) (rng : Rng) :
    0 ≤ (calc_move_effects d u mv rng).2.1 := by
  cases mv
  · simp [calc_move_effects]
  · simp [calc_move_effects]
  · simp only [calc_move_effects]
    have := uniform_randint_ge 5 15 rng.seed
    omega
  · simp only [calc_move_effects]
    split_ifs <;> simp

/-- The end-of-duel bookkeeping touches status/winner/end time, never HP. -/
lemma resolve_end_hp (d2 : Duel) (now : Int) :
    (resolve_end d2 now).challenger_hp = d2.challenger_hp
    ∧ (resolve_end d2 now).challenged_hp = d2.challenged_hp := by
  unfold resolve_end
  rcases check_duel_end d2 with _ | w
  · exact ⟨rfl, rfl⟩
  · by_cases hw : w ≠ 0 <;> simp [hw, end_duel]

/-- C7: for every active duel whose HP values lie in [0, 100] and whose
attack stats are non-negative (every duel created by the system has the
default attack 10), every move kind, and every outcome of the randomness
source, a successful `make_move` leaves both combatants' stored HP in
[0, 100]: damage is clamped below at 0 and healing is capped at maxHp 100. -/
theorem make_move_hp_bounds :
    ∀ (d : Duel) (u : Int) (mv : MoveType) (rng : Rng) (now : Int) (r : MoveOutcome),
      d.is_active = true →
      0 ≤ d.challenger_hp → d.challenger_hp ≤ 100 →
      0 ≤ d.challenged_hp → d.challenged_hp ≤ 100 →
      0 ≤ d.challenger_attack → 0 ≤ d.challenged_attack →
      make_move (some d) u mv rng now = .ok r →
      0 ≤ r.stored.challenger_hp ∧ r.stored.challenger_hp ≤ 100
      ∧ 0 ≤ r.stored.challenged_hp ∧ r.stored.challenged_hp ≤ 100 := by
  intro d u mv rng now r hact h1 h2 h3 h4 ha1 ha2 hmk
  have hd := calc_damage_nonneg d u mv rng ha1 ha2
  have hh := calc_healing_nonneg d u mv rng
  simp only [make_move, hact, not_true, Bool.true_eq_false, reduceIte] at hmk
  split_ifs at hmk with hmem hhp hu hu2
  all_goals
    simp only [Except.ok.injEq] at hmk
    subst hmk
    dsimp only
    rw [(resolve_end_hp _ now).1, (resolve_end_hp _ now).2]
    refine ⟨?_, ?_, ?_, ?_⟩ <;>
      (try simp only [Duel.get_user_hp]) <;> (try split_ifs) <;> omega

/-- Witness for C7: the HP-bounds theorem applied to a concrete attack move
in a fresh active duel. -/
theorem make_move_hp_bounds_witness :
    ∃ r : MoveOutcome,
      make_move (some hp_witness_duel) 1 .attack ⟨0, true⟩ 0 = .ok r
      ∧ (0 ≤ r.stored.challenger_hp ∧ r.stored.challenger_hp ≤ 100
        ∧ 0 ≤ r.stored.challenged_hp ∧ r.stored.challenged_hp ≤ 100) := by
  refine ⟨_, rfl, ?_⟩
  exact make_move_hp_bounds hp_witness_duel 1 .attack ⟨0, true⟩ 0 _ rfl
    (by decide) (by decide) (by decide) (by decide) (by decide) (by decide) rfl

/-- C1: the claim is right and the code is wrong — after a move that leaves
both combatants at HP ≤ 0, `_check_duel_end` returns `None` (its own `#
Draw` case), the truthiness guard `if winner:` therefore skips `_end_duel`
(whose own code handles a `None` winner by storing status COMPLETED), and
the stored duel REMAINS `active` with no winner instead of completing as a
draw: here the challenger's attack with seed 0 deals 8 damage, both HP end
at 0, and the stored status is still `active`. -/
theorem make_move_double_ko_leaves_duel_active :
    (make_move (some double_ko_duel) 1 .attack ⟨0, true⟩ 0).toOption.map
      (fun r => (r.stored.status, r.stored.winner_id,
                 r.stored.challenger_hp, r.stored.challenged_hp))
      = some (.active, none, 0, 0) := rfl

/-- C8 counterexample: with user 1 holding an ACTIVE (hence non-terminal)
duel, `create_duel 1 2` nevertheless SUCCEEDS (the pending-duel query only
matches status `pending`), and `accept_duel` called by user 4 — a user other
than any challenged party — returns `None` instead of failing with a
NotChallenged error. -/
theorem nonterminal_duel_does_not_block_challenge_cx :
    (create_duel [active_duel_of_1] 1 2 5 9).toOption.isSome = true
    ∧ accept_duel [active_duel_of_1] 4 5 0 = .ok none := ⟨rfl, rfl⟩

/-- C8 amended: `create_duel` fails with a duel-in-progress error (and
creates no duel) whenever either party already has a PENDING duel in the
community — an active duel does not block a new challenge; `accept_duel`
called by a user whose pending duel was not issued to them (its challenger)
fails with NotChallenged, applying no state change (the error branch
returns no updated table); `accept_duel` by a user with no pending duel
returns `None` and raises nothing. -/
theorem pending_duel_blocks_challenge :
    (∀ (db : List Duel) (a b g id : Int),
      ((get_pending_duel db a g).isSome ∨ (get_pending_duel db b g).isSome) →
      ∃ e, create_duel db a b g id = .error e
        ∧ (e = PyError.challengerHasPendingDuel ∨ e = PyError.challengedHasPendingDuel))
    ∧ (∀ (db : List Duel) (u g now : Int) (d : Duel),
      get_pending_duel db u g = some d → d.challenged_id ≠ u →
      accept_duel db u g now = .error .notChallenged)
    ∧ (∀ (db : List Duel) (u g now : Int),
      get_pending_duel db u g = none → accept_duel db u g now = .ok none) := by
  refine ⟨?_, ?_, ?_⟩
  · intro db a b g id h
    unfold create_duel
    by_cases ha : (get_pending_duel db a g).isSome
    · exact ⟨_, by rw [if_pos ha], Or.inl rfl⟩
    · have hb : (get_pending_duel db b g).isSome := h.resolve_left ha
      exact ⟨_, by rw [if_neg ha, if_pos hb], Or.inr rfl⟩
  · intro db u g now d hfind hne
    unfold accept_duel
    rw [hfind]
    dsimp only
    rw [if_pos hne]
  · intro db u g now hfind
    unfold accept_duel
    rw [hfind]

/-- Witness for C8 amended: a pending duel of user 1 blocks a new challenge
by user 1; user 1 (the challenger, not the challenged) cannot accept it;
a user with no pending duel gets `None` from accept. -/
theorem pending_duel_blocks_challenge_witness :
    (∃ e, create_duel [pending_duel_of_1] 1 3 5 9 = .error e
      ∧ (e = PyError.challengerHasPendingDuel ∨ e = PyError.challengedHasPendingDuel))
    ∧ accept_duel [pending_duel_of_1] 1 5 0 = .error .notChallenged
    ∧ accept_duel [] 4 5 0 = .ok none :=
  ⟨pending_duel_blocks_challenge.1 [pending_duel_of_1] 1 3 5 9 (Or.inl (by decide)),
   pending_duel_blocks_challenge.2.1 [pending_duel_of_1] 1 5 0 pending_duel_of_1
     (by decide) (by decide),
   pending_duel_blocks_challenge.2.2 [] 4 5 0 (by decide)⟩

/-- With the opposing level at least 1, every round strictly reduces the
challenger's HP, so the loop ends with one side at HP ≤ 0 before fuel runs
out. -/
lemma instant_duel_loop_terminates (lc lt : Int) (rng : Nat → Nat × Nat)
    (hlt : 1 ≤ lt) :
    ∀ (fuel : Nat) (round_num : Nat) (hc ht : Int), hc.toNat < fuel →
      ∃ p, instant_duel_loop lc lt rng round_num hc ht fuel = some p
        ∧ (p.1 ≤ 0 ∨ p.2 ≤ 0) := by
  intro fuel
  induction fuel with
  | zero => intro round_num hc ht h; omega
  | succ f ih =>
    intro round_num hc ht hfuel
    by_cases hcond : hc > 0 ∧ ht > 0
    · simp only [instant_duel_loop, if_pos hcond]
      apply ih
      have hr := uniform_randint_ge 0 100 (rng round_num).2
      omega
    · refine ⟨(hc, ht), ?_, by omega⟩
      simp only [instant_duel_loop, if_neg hcond]

/-- C10: in instant-duel mode both combatants start at 250 HP; while both
sides are alive a round deals each side `uniformRandomInt(0, 100)` plus the
attacker's level, both applied simultaneously to the pre-round HP and
clamped below at 0; and for levels ≥ 1 (every stored level is ≥ 1) the
rounds repeat until at least one side's HP is ≤ 0, which is where the fight
stops. -/
theorem instant_duel_round_and_termination :
    (∀ (lc lt : Int) (rng : Nat → Nat × Nat),
      instant_duel lc lt rng = instant_duel_loop lc lt rng 1 250 250 251)
    ∧ (∀ (lc lt : Int) (rng : Nat → Nat × Nat) (round_num : Nat) (hc ht : Int)
        (fuel : Nat),
      0 < hc → 0 < ht →
      instant_duel_loop lc lt rng round_num hc ht (fuel + 1)
        = instant_duel_loop lc lt rng (round_num + 1)
            (max 0 (hc - (uniform_randint 0 100 (rng round_num).2 + lt)))
            (max 0 (ht - (uniform_randint 0 100 (rng round_num).1 + lc))) fuel)
    ∧ (∀ (lc lt : Int) (rng : Nat → Nat × Nat),
      1 ≤ lc → 1 ≤ lt →
      ∃ p, instant_duel lc lt rng = some p ∧ (p.1 ≤ 0 ∨ p.2 ≤ 0)) := by
  refine ⟨fun _ _ _ => rfl, ?_, ?_⟩
  · intro lc lt rng round_num hc ht fuel h1 h2
    simp only [instant_duel_loop, if_pos (And.intro h1 h2)]
  · intro lc lt rng _hlc hlt
    exact instant_duel_loop_terminates lc lt rng hlt 251 1 250 250 (by norm_num)

/-- Witness for C10: the instant-duel theorem applied at levels 1 vs 1 with
an all-zero randomness stream. -/
theorem instant_duel_round_and_termination_witness :
    (instant_duel 1 1 (fun _ => (0, 0)) = instant_duel_loop 1 1 (fun _ => (0, 0)) 1 250 250 251)
    ∧ (instant_duel_loop 1 1 (fun _ => (0, 0)) 1 250 250 251
        = instant_duel_loop 1 1 (fun _ => (0, 0)) 2
            (max 0 (250 - (uniform_randint 0 100 0 + 1)))
            (max 0 (250 - (uniform_randint 0 100 0 + 1))) 250)
    ∧ (∃ p, instant_duel 1 1 (fun _ => (0, 0)) = some p ∧ (p.1 ≤ 0 ∨ p.2 ≤ 0)) :=
  ⟨instant_duel_round_and_termination.1 1 1 (fun _ => (0, 0)),
   instant_duel_round_and_termination.2.1 1 1 (fun _ => (0, 0)) 1 250 250 250
     (by norm_num) (by norm_num),
   instant_duel_round_and_termination.2.2 1 1 (fun _ => (0, 0))
     (by norm_num) (by norm_num)⟩

end DuelBot
